import Mathlib

/-
Verification of the environment-configuration module of the ShopLocal
storefront (src/lib/config.ts).

The module is shallowly embedded: the Vite environment (`import.meta.env`)
and the browser storage (`window.localStorage`) become explicit state
records, JavaScript truthiness tests on strings become emptiness tests, the
builtin `Number()` coercion becomes an executable model `jsNumber` over an
inductive `JSNum` that has an explicit not-a-number value, and `btoa`
becomes an `Option`-valued base64 encoder (`none` models the
InvalidCharacterError the browser throws on code points above 255).
-/

namespace ShopLocal

/-- The JavaScript number produced by coercing a string: either a finite
value (modelled as a rational), one of the two infinities, or the
not-a-number value NaN. -/
inductive JSNum where
  | nan : JSNum
  | num (q : ℚ) : JSNum
  | posInf : JSNum
  | negInf : JSNum
deriving DecidableEq

/-- The characters trimmed by the ECMAScript ToNumber coercion: WhiteSpace
and LineTerminator code points. -/
def jsWhitespace (c : Char) : Bool :=
  c = ' ' || c = '\t' || c = '\n' || c = '\r' ||
  c.toNat = 11 || c.toNat = 12 || c.toNat = 0xa0 || c.toNat = 0x1680 ||
  (0x2000 ≤ c.toNat && c.toNat ≤ 0x200a) ||
  c.toNat = 0x2028 || c.toNat = 0x2029 || c.toNat = 0x202f ||
  c.toNat = 0x205f || c.toNat = 0x3000 || c.toNat = 0xfeff

/-- Strip leading and trailing ToNumber whitespace. -/
def jsTrim (cs : List Char) : List Char :=
  ((cs.dropWhile jsWhitespace).reverse.dropWhile jsWhitespace).reverse

/-- Hexadecimal digit test. -/
def isHexDigitChar (c : Char) : Bool :=
  c.isDigit || ('a' ≤ c && c ≤ 'f') || ('A' ≤ c && c ≤ 'F')

/-- Value of a single hexadecimal digit. -/
def hexDigitVal (c : Char) : Nat :=
  if c.isDigit then c.toNat - 48
  else if 'a' ≤ c && c ≤ 'f' then c.toNat - 87
  else c.toNat - 55

/-- Value of a digit string in the given radix. -/
def radixVal (b : Nat) (ds : List Char) : Nat :=
  ds.foldl (fun a c => a * b + hexDigitVal c) 0

/-- Value of a decimal digit string. -/
def decNat (ds : List Char) : Nat :=
  ds.foldl (fun a c => a * 10 + (c.toNat - 48)) 0

/-- Negate a JavaScript number when the numeral carried a minus sign. -/
def applySign (neg : Bool) (n : JSNum) : JSNum :=
  if neg then
    match n with
    | .num q => .num (-q)
    | .posInf => .negInf
    | .negInf => .posInf
    | .nan => .nan
  else n

/-- Parse the optional exponent part of a decimal numeral; the whole
remainder must be consumed. -/
def parseExpPart (cs : List Char) : Option ℤ :=
  match cs with
  | [] => some 0
  | e :: rest =>
    if e = 'e' || e = 'E' then
      let p : Bool × List Char :=
        match rest with
        | '+' :: ds => (false, ds)
        | '-' :: ds => (true, ds)
        | ds => (false, ds)
      if p.2 ≠ [] ∧ p.2.all Char.isDigit then
        some (if p.1 then -(decNat p.2 : ℤ) else (decNat p.2 : ℤ))
      else none
    else none

/-- Parse an unsigned decimal numeral (digits, optional fraction, optional
exponent); `none` when the characters are not a complete numeral. -/
def parseUnsignedDec (cs : List Char) : Option ℚ :=
  let ip := cs.takeWhile Char.isDigit
  let r1 := cs.dropWhile Char.isDigit
  match r1 with
  | '.' :: r2 =>
    let fp := r2.takeWhile Char.isDigit
    let r3 := r2.dropWhile Char.isDigit
    if ip = [] ∧ fp = [] then none
    else
      match parseExpPart r3 with
      | some e =>
        some (((decNat ip : ℚ) + (decNat fp : ℚ) / ((10 : ℚ) ^ fp.length)) * (10 : ℚ) ^ e)
      | none => none
  | _ =>
    if ip = [] then none
    else
      match parseExpPart r1 with
      | some e => some ((decNat ip : ℚ) * (10 : ℚ) ^ e)
      | none => none

/-- Parse a signed decimal numeral or a signed Infinity. -/
def parseSignedDec (cs : List Char) : JSNum :=
  let p : Bool × List Char :=
    match cs with
    | '+' :: r => (false, r)
    | '-' :: r => (true, r)
    | r => (false, r)
  if p.2 = "Infinity".data then applySign p.1 .posInf
  else
    match parseUnsignedDec p.2 with
    | some q => applySign p.1 (.num q)
    | none => .nan

/-- Parse a nonempty trimmed numeral: an unsigned hex, octal or binary
literal, or a signed decimal numeral. -/
def parseNumeral (cs : List Char) : JSNum :=
  match cs with
  | '0' :: c :: ds =>
    if c = 'x' || c = 'X' then
      if ds ≠ [] ∧ ds.all isHexDigitChar then .num (radixVal 16 ds : ℚ) else .nan
    else if c = 'o' || c = 'O' then
      if ds ≠ [] ∧ ds.all (fun d => '0' ≤ d && d ≤ '7') then .num (radixVal 8 ds : ℚ) else .nan
    else if c = 'b' || c = 'B' then
      if ds ≠ [] ∧ ds.all (fun d => d = '0' || d = '1') then .num (radixVal 2 ds : ℚ) else .nan
    else parseSignedDec cs
  | _ => parseSignedDec cs

/-- Models the ECMAScript ToNumber coercion the builtin Number() applies to
a string: trim whitespace, coerce the empty string to 0, otherwise parse a
hex, octal, binary, decimal or Infinity numeral, producing NaN on anything
else. The negative-zero distinction of IEEE floats is not represented. -/
def jsNumber (s : String) : JSNum :=
  let cs := jsTrim s.data
  if cs = [] then .num 0 else parseNumeral cs

/-- The base64 alphabet in index order. -/
def base64Chars : List Char :=
  "ABCDEFGHIJKLMNOPQRSTUVWXYZabcdefghijklmnopqrstuvwxyz0123456789+/".data

/-- Character of the base64 alphabet at a 6-bit index. -/
def b64c (n : Nat) : Char := base64Chars.getD n 'A'

/-- RFC 4648 base64 encoding of a byte list, with padding. -/
def base64encode : List Nat → List Char
  | [] => []
  | [a] =>
    let n := a * 65536
    [b64c (n / 262144 % 64), b64c (n / 4096 % 64), '=', '=']
  | [a, b] =>
    let n := a * 65536 + b * 256
    [b64c (n / 262144 % 64), b64c (n / 4096 % 64), b64c (n / 64 % 64), '=']
  | a :: b :: c :: rest =>
    let n := a * 65536 + b * 256 + c
    b64c (n / 262144 % 64) :: b64c (n / 4096 % 64) :: b64c (n / 64 % 64) :: b64c (n % 64)
      :: base64encode rest

/-- Models the browser btoa builtin: base64 of the code points of a string
whose characters are all below 256; `none` models the
InvalidCharacterError thrown on any larger code point. -/
def btoa (s : String) : Option String :=
  if s.data.all (fun c => c.toNat < 256) then
    some (String.mk (base64encode (s.data.map Char.toNat)))
  else none

/-- The state of the Vite environment as the module sees it:
whether `import.meta` is defined, whether `import.meta.env` is truthy, the
string-valued environment variables (`none` models an absent key), and the
DEV and PROD flags. -/
structure JSEnv where
  metaDefined : Bool
  envTruthy : Bool
  vars : String → Option String
  dev : Bool
  prod : Bool

/-- Model of `getEnv`: look the key up in `import.meta.env` when available
and return the value unless it is falsy (absent or empty), in which case
the default is returned. -/
def getEnv (e : JSEnv) (key : String) (defaultValue : String := "") : String :=
  if e.metaDefined && e.envTruthy then
    match e.vars key with
    | some v => if v = "" then defaultValue else v
    | none => defaultValue
  else defaultValue

/-- Model of `getEnvBoolean`: `value === 'true' || defaultValue`. -/
def getEnvBoolean (e : JSEnv) (key : String) (defaultValue : Bool := false) : Bool :=
  if getEnv e key = "true" then true else defaultValue

/-- Model of `getEnvNumber`: `value ? Number(value) : defaultValue`. -/
def getEnvNumber (e : JSEnv) (key : String) (defaultValue : JSNum := .num 0) : JSNum :=
  if getEnv e key ≠ "" then jsNumber (getEnv e key) else defaultValue

structure ApiConfig where
  geodir : String
  wordpress : String
  dokan : String
  timeout : JSNum

structure AuthConfig where
  username : String
  appPassword : String
  token : String
  jwtSecret : String
  jwtExpiration : String

structure StripeConfig where
  publishableKey : String
  secretKey : String

structure PaypalConfig where
  clientId : String
  secret : String

structure ServicesConfig where
  unsplash : String
  googleMaps : String
  stripe : StripeConfig
  paypal : PaypalConfig

structure AppConfig where
  env : String
  url : String
  isDevelopment : Bool
  isProduction : Bool

structure PaginationConfig where
  defaultPerPage : JSNum
  maxPerPage : JSNum

structure FeaturesConfig where
  reviews : Bool
  wishlist : Bool
  chat : Bool
  notifications : Bool

structure SmtpConfig where
  host : String
  port : JSNum
  user : String
  password : String

structure EmailConfig where
  smtp : SmtpConfig
  from_ : String
  fromName : String

structure AwsConfig where
  accessKeyId : String
  secretAccessKey : String
  region : String
  bucket : String

structure StorageConfig where
  cdnUrl : String
  aws : AwsConfig

structure AnalyticsConfig where
  googleAnalytics : String
  facebookPixel : String
  sentry : String

structure RateLimitConfig where
  requests : JSNum
  window : JSNum

structure SecurityConfig where
  corsOrigins : List String
  rateLimit : RateLimitConfig
  sessionSecret : String

structure Config where
  api : ApiConfig
  auth : AuthConfig
  services : ServicesConfig
  app : AppConfig
  pagination : PaginationConfig
  features : FeaturesConfig
  email : EmailConfig
  storage : StorageConfig
  analytics : AnalyticsConfig
  security : SecurityConfig

/-- Model of the `config` object, built from the environment state exactly
as the source builds it at module load. -/
def config (e : JSEnv) : Config :=
  { api :=
      { geodir := getEnv e "VITE_GEODIR_API_URL" "https://shoplocal.kinsta.cloud/wp-json/geodir/v2"
        wordpress := getEnv e "VITE_WP_API_URL" "https://shoplocal.kinsta.cloud/wp-json/wp/v2"
        dokan := getEnv e "VITE_DOKAN_API_URL" "https://shoplocal.kinsta.cloud/wp-json/dokan/v1"
        timeout := getEnvNumber e "VITE_API_TIMEOUT" (.num 10000) }
    auth :=
      { username := getEnv e "VITE_WP_USERNAME"
        appPassword := getEnv e "VITE_WP_APP_PASSWORD"
        token := getEnv e "VITE_API_AUTH_TOKEN"
        jwtSecret := getEnv e "VITE_JWT_SECRET"
        jwtExpiration := getEnv e "VITE_JWT_EXPIRATION" "7d" }
    services :=
      { unsplash := getEnv e "VITE_UNSPLASH_ACCESS_KEY"
        googleMaps := getEnv e "VITE_GOOGLE_MAPS_API_KEY"
        stripe :=
          { publishableKey := getEnv e "VITE_STRIPE_PUBLISHABLE_KEY"
            secretKey := getEnv e "VITE_STRIPE_SECRET_KEY" }
        paypal :=
          { clientId := getEnv e "VITE_PAYPAL_CLIENT_ID"
            secret := getEnv e "VITE_PAYPAL_SECRET" } }
    app :=
      { env := getEnv e "VITE_APP_ENV" "development"
        url := getEnv e "VITE_APP_URL" "http://localhost:5173"
        isDevelopment := e.metaDefined && e.envTruthy && e.dev
        isProduction := e.metaDefined && e.envTruthy && e.prod }
    pagination :=
      { defaultPerPage := getEnvNumber e "VITE_DEFAULT_PER_PAGE" (.num 20)
        maxPerPage := getEnvNumber e "VITE_MAX_PER_PAGE" (.num 100) }
    features :=
      { reviews := getEnvBoolean e "VITE_ENABLE_REVIEWS" true
        wishlist := getEnvBoolean e "VITE_ENABLE_WISHLIST" true
        chat := getEnvBoolean e "VITE_ENABLE_CHAT" false
        notifications := getEnvBoolean e "VITE_ENABLE_NOTIFICATIONS" true }
    email :=
      { smtp :=
          { host := getEnv e "VITE_SMTP_HOST"
            port := getEnvNumber e "VITE_SMTP_PORT" (.num 587)
            user := getEnv e "VITE_SMTP_USER"
            password := getEnv e "VITE_SMTP_PASSWORD" }
        from_ := getEnv e "VITE_SMTP_FROM" "noreply@shoplocal.com"
        fromName := getEnv e "VITE_SMTP_FROM_NAME" "ShopLocal Marketplace" }
    storage :=
      { cdnUrl := getEnv e "VITE_CDN_URL"
        aws :=
          { accessKeyId := getEnv e "VITE_AWS_ACCESS_KEY_ID"
            secretAccessKey := getEnv e "VITE_AWS_SECRET_ACCESS_KEY"
            region := getEnv e "VITE_AWS_REGION" "us-east-1"
            bucket := getEnv e "VITE_AWS_S3_BUCKET" } }
    analytics :=
      { googleAnalytics := getEnv e "VITE_GA_TRACKING_ID"
        facebookPixel := getEnv e "VITE_FB_PIXEL_ID"
        sentry := getEnv e "VITE_SENTRY_DSN" }
    security :=
      { corsOrigins := ((getEnv e "VITE_CORS_ORIGINS").splitOn ",").filter (fun s => s ≠ "")
        rateLimit :=
          { requests := getEnvNumber e "VITE_RATE_LIMIT_REQUESTS" (.num 100)
            window := getEnvNumber e "VITE_RATE_LIMIT_WINDOW" (.num 900000) }
        sessionSecret := getEnv e "VITE_SESSION_SECRET" } }

/-- The state of the browser storage as `getAuthHeader` sees it: whether
`window` is defined, whether `window.localStorage` is truthy, and the
stored items (`getItem` returns `none` for null). -/
structure BrowserStorage where
  windowDefined : Bool
  localStorageTruthy : Bool
  items : String → Option String

/-- Model of `getAuthHeader`: configured token first, then a btoa of
username:appPassword, then a non-empty stored authToken, then the empty
string. The result is `none` exactly when the code throws (btoa on a
credential with a code point above 255). -/
def getAuthHeader (e : JSEnv) (w : BrowserStorage) : Option String :=
  if (config e).auth.token ≠ "" then
    some ("Basic " ++ (config e).auth.token)
  else if (config e).auth.username ≠ "" ∧ (config e).auth.appPassword ≠ "" then
    match btoa ((config e).auth.username ++ ":" ++ (config e).auth.appPassword) with
    | some token => some ("Basic " ++ token)
    | none => none
  else if w.windowDefined && w.localStorageTruthy then
    match w.items "authToken" with
    | some storedToken => if storedToken ≠ "" then some ("Basic " ++ storedToken) else some ""
    | none => some ""
  else some ""

/-- The four feature-flag keys of `config.features`. -/
inductive FeatureKey where
  | reviews | wishlist | chat | notifications

/-- Model of `isFeatureEnabled`. -/
def isFeatureEnabled (e : JSEnv) : FeatureKey → Bool
  | .reviews => (config e).features.reviews
  | .wishlist => (config e).features.wishlist
  | .chat => (config e).features.chat
  | .notifications => (config e).features.notifications

/-- The three API services of `config.api`. -/
inductive ApiService where
  | geodir | wordpress | dokan

/-- Model of `getApiUrl`. -/
def getApiUrl (e : JSEnv) : ApiService → String
  | .geodir => (config e).api.geodir
  | .wordpress => (config e).api.wordpress
  | .dokan => (config e).api.dokan

/-- The sequence the spec describes for `security.corsOrigins`: split the
environment string on commas and discard empty segments. Stated from the
spec's words, to be compared with the definition taken from the source. -/
def splitCommasDropEmpty (s : String) : List String :=
  (s.splitOn ",").filter (fun t => t ≠ "")

/-- An environment whose variable source is available but holds no keys. -/
def envEmpty : JSEnv :=
  { metaDefined := true, envTruthy := true, vars := fun _ => none, dev := false, prod := false }

/-- An environment whose variable source is unavailable. -/
def envUnavailable : JSEnv :=
  { metaDefined := false, envTruthy := false, vars := fun _ => none, dev := false, prod := false }

/-- An available environment holding exactly the given key-value pairs. -/
def envWith (pairs : List (String × String)) : JSEnv :=
  { metaDefined := true, envTruthy := true
    vars := fun k => (pairs.find? (fun p => p.1 == k)).map Prod.snd
    dev := false, prod := false }

/-- The variable named k is falsy for the reader: the environment source
is unavailable, or the key is absent or holds the empty string. -/
abbrev varFalsy (e : JSEnv) (k : String) : Prop :=
  e.metaDefined = false ∨ e.envTruthy = false ∨
    e.vars k = none ∨ e.vars k = some ""

/-- A browser state with no window object. -/
def lsNone : BrowserStorage :=
  { windowDefined := false, localStorageTruthy := false, items := fun _ => none }

/-- A browser state whose storage holds exactly authToken = t. -/
def lsWith (t : String) : BrowserStorage :=
  { windowDefined := true, localStorageTruthy := true
    items := fun k => if k = "authToken" then some t else none }

/-- A lookup for which the variable is falsy or the source unavailable
returns the default. -/
theorem getEnv_eq_default (e : JSEnv) (k d : String)
    (h : e.metaDefined = false ∨ e.envTruthy = false ∨
      e.vars k = none ∨ e.vars k = some "") :
    getEnv e k d = d := by
  unfold getEnv
  rcases h with h | h | h | h <;> simp [h]

/-- A lookup of a present, non-empty variable returns its value. -/
theorem getEnv_eq_val (e : JSEnv) (k d v : String)
    (h1 : e.metaDefined = true) (h2 : e.envTruthy = true)
    (h3 : e.vars k = some v) (h4 : v ≠ "") :
    getEnv e k d = v := by
  unfold getEnv
  simp [h1, h2, h3, h4]

/-- A boolean lookup for which the variable is falsy or the source
unavailable returns the default. -/
theorem getEnvBoolean_eq_default (e : JSEnv) (k : String) (d : Bool)
    (h : e.metaDefined = false ∨ e.envTruthy = false ∨
      e.vars k = none ∨ e.vars k = some "") :
    getEnvBoolean e k d = d := by
  unfold getEnvBoolean
  rw [getEnv_eq_default e k "" h]
  simp

/-- A numeric lookup for which the variable is falsy or the source
unavailable returns the default. -/
theorem getEnvNumber_eq_default (e : JSEnv) (k : String) (d : JSNum)
    (h : e.metaDefined = false ∨ e.envTruthy = false ∨
      e.vars k = none ∨ e.vars k = some "") :
    getEnvNumber e k d = d := by
  unfold getEnvNumber
  rw [getEnv_eq_default e k "" h]
  simp

/-- The string 0 coerces to the number 0. -/
theorem jsNumber_zero : jsNumber "0" = JSNum.num 0 := by
  have h : jsNumber "0" = JSNum.num ((decNat ['0'] : ℚ) * (10 : ℚ) ^ (0 : ℤ)) := rfl
  have h2 : decNat ['0'] = 0 := by decide
  rw [h, h2]
  norm_num

/-- The string 5 coerces to the number 5. -/
theorem jsNumber_five : jsNumber "5" = JSNum.num 5 := by
  have h : jsNumber "5" = JSNum.num ((decNat ['5'] : ℚ) * (10 : ℚ) ^ (0 : ℤ)) := rfl
  have h2 : decNat ['5'] = 5 := by decide
  rw [h, h2]
  norm_num

/-- Claim C2: for every boolean key and default, the exact string true
yields true, any other value of the variable (including false and the
empty string) yields the configured default, never the negation; in
particular the reviews flag, whose default is true, stays true when its
variable is set to false. -/
theorem claim_C2 (e : JSEnv) (k : String) (d : Bool)
    (h1 : e.metaDefined = true) (h2 : e.envTruthy = true) :
    (e.vars k = some "true" → getEnvBoolean e k d = true) ∧
    (∀ v, e.vars k = some v → v ≠ "true" → getEnvBoolean e k d = d) ∧
    (e.vars "VITE_ENABLE_REVIEWS" = some "false" → (config e).features.reviews = true) := by
  have main : ∀ (k : String) (d : Bool) (v : String),
      e.vars k = some v → v ≠ "true" → getEnvBoolean e k d = d := by
    intro k d v hv hne
    unfold getEnvBoolean
    by_cases hve : v = ""
    · rw [getEnv_eq_default e k "" (Or.inr (Or.inr (Or.inr (hve ▸ hv))))]
      simp
    · rw [getEnv_eq_val e k "" v h1 h2 hv hve, if_neg hne]
  refine ⟨?_, main k d, ?_⟩
  · intro hv
    unfold getEnvBoolean
    rw [getEnv_eq_val e k "" "true" h1 h2 hv (by decide)]
    simp
  · intro hv
    exact main "VITE_ENABLE_REVIEWS" true "false" hv (by decide)

/-- Claim C2 witness: at a concrete environment, the chat flag set to true
reads true, and the reviews flag set to false stays at its true default. -/
theorem claim_C2_witness :
    getEnvBoolean (envWith [("VITE_ENABLE_CHAT", "true")]) "VITE_ENABLE_CHAT" false = true ∧
    (config (envWith [("VITE_ENABLE_REVIEWS", "false")])).features.reviews = true :=
  ⟨(claim_C2 (envWith [("VITE_ENABLE_CHAT", "true")]) "VITE_ENABLE_CHAT" false rfl rfl).1
      (by decide),
    (claim_C2 (envWith [("VITE_ENABLE_REVIEWS", "false")]) "X" false rfl rfl).2.2 (by decide)⟩

/-- Claim C3: for every numeric key and default, a non-empty variable
yields exactly the language-standard numeric parse of the string — the
not-a-number value when the string is unparseable, with no guard — and an
empty or absent variable yields the default; config.api.timeout is such a
field. -/
theorem claim_C3 (e : JSEnv) (k : String) (d : JSNum) (v : String)
    (h1 : e.metaDefined = true) (h2 : e.envTruthy = true) :
    (e.vars k = some v → v ≠ "" → getEnvNumber e k d = jsNumber v) ∧
    ((e.vars k = none ∨ e.vars k = some "") → getEnvNumber e k d = d) ∧
    (e.vars "VITE_API_TIMEOUT" = some v → v ≠ "" →
      (config e).api.timeout = jsNumber v) ∧
    jsNumber "abc" = JSNum.nan := by
  have main : ∀ (k : String) (d : JSNum),
      e.vars k = some v → v ≠ "" → getEnvNumber e k d = jsNumber v := by
    intro k d hv hne
    unfold getEnvNumber
    rw [getEnv_eq_val e k "" v h1 h2 hv hne, if_pos hne]
  refine ⟨main k d, ?_, main "VITE_API_TIMEOUT" (.num 10000), by decide⟩
  intro hv
  exact getEnvNumber_eq_default e k d (Or.inr (Or.inr hv))

/-- Claim C3 witness: at a concrete environment holding K = 5, the numeric
lookup of K with default 7 returns the parsed number 5. -/
theorem claim_C3_witness :
    getEnvNumber (envWith [("K", "5")]) "K" (JSNum.num 7) = JSNum.num 5 :=
  ((claim_C3 (envWith [("K", "5")]) "K" (JSNum.num 7) "5" rfl rfl).1
    (by decide) (by decide)).trans jsNumber_five

/-- Claim C7: the environment readers are total functions of the
environment state — the shallow embedding gives them plain, non-optional
return types because no operation in their source can raise — and every
lookup whose source is unavailable or whose variable is absent silently
returns the default. -/
theorem claim_C7 (e : JSEnv) (k ds : String) (db : Bool) (dn : JSNum)
    (h : e.metaDefined = false ∨ e.envTruthy = false ∨ e.vars k = none) :
    getEnv e k ds = ds ∧ getEnvBoolean e k db = db ∧ getEnvNumber e k dn = dn := by
  have h4 : e.metaDefined = false ∨ e.envTruthy = false ∨
      e.vars k = none ∨ e.vars k = some "" := by
    rcases h with h | h | h
    · exact Or.inl h
    · exact Or.inr (Or.inl h)
    · exact Or.inr (Or.inr (Or.inl h))
  exact ⟨getEnv_eq_default e k ds h4, getEnvBoolean_eq_default e k db h4,
    getEnvNumber_eq_default e k dn h4⟩

/-- Claim C7 witness: with the environment source unavailable, all three
readers return their defaults. -/
theorem claim_C7_witness :
    getEnv envUnavailable "X" "d" = "d" ∧
    getEnvBoolean envUnavailable "X" true = true ∧
    getEnvNumber envUnavailable "X" (JSNum.num 3) = JSNum.num 3 :=
  claim_C7 envUnavailable "X" "d" true (JSNum.num 3) (Or.inl rfl)

/-- Claim C10: getEnvNumber tests presence on the raw string, so the
string 0 yields the number 0 rather than the default, in particular for
config.api.timeout (default 10000) and config.email.smtp.port
(default 587). -/
theorem claim_C10 (e : JSEnv) (k : String) (d : JSNum)
    (h1 : e.metaDefined = true) (h2 : e.envTruthy = true) :
    (e.vars k = some "0" → getEnvNumber e k d = JSNum.num 0) ∧
    (e.vars "VITE_API_TIMEOUT" = some "0" → (config e).api.timeout = JSNum.num 0) ∧
    (e.vars "VITE_SMTP_PORT" = some "0" → (config e).email.smtp.port = JSNum.num 0) := by
  have main : ∀ (k : String) (d : JSNum),
      e.vars k = some "0" → getEnvNumber e k d = JSNum.num 0 := by
    intro k d hv
    unfold getEnvNumber
    rw [getEnv_eq_val e k "" "0" h1 h2 hv (by decide), if_pos (by decide)]
    exact jsNumber_zero
  exact ⟨main k d, main "VITE_API_TIMEOUT" (.num 10000), main "VITE_SMTP_PORT" (.num 587)⟩

/-- Claim C10 witness: with VITE_API_TIMEOUT = 0, config.api.timeout is
the number 0, not the default 10000. -/
theorem claim_C10_witness :
    (config (envWith [("VITE_API_TIMEOUT", "0")])).api.timeout = JSNum.num 0 :=
  (claim_C10 (envWith [("VITE_API_TIMEOUT", "0")]) "VITE_API_TIMEOUT" (JSNum.num 10000)
    rfl rfl).2.1 (by decide)

/-- Claim C4: for every environment-backed field separately, when the
field's own environment variable is absent or empty (or the source is
unavailable), the field equals its documented default literal exactly,
regardless of what the other variables hold. -/
theorem claim_C4 (e : JSEnv) :
    (varFalsy e "VITE_GEODIR_API_URL" →
      (config e).api.geodir = "https://shoplocal.kinsta.cloud/wp-json/geodir/v2") ∧
    (varFalsy e "VITE_WP_API_URL" →
      (config e).api.wordpress = "https://shoplocal.kinsta.cloud/wp-json/wp/v2") ∧
    (varFalsy e "VITE_DOKAN_API_URL" →
      (config e).api.dokan = "https://shoplocal.kinsta.cloud/wp-json/dokan/v1") ∧
    (varFalsy e "VITE_API_TIMEOUT" → (config e).api.timeout = JSNum.num 10000) ∧
    (varFalsy e "VITE_WP_USERNAME" → (config e).auth.username = "") ∧
    (varFalsy e "VITE_WP_APP_PASSWORD" → (config e).auth.appPassword = "") ∧
    (varFalsy e "VITE_API_AUTH_TOKEN" → (config e).auth.token = "") ∧
    (varFalsy e "VITE_JWT_SECRET" → (config e).auth.jwtSecret = "") ∧
    (varFalsy e "VITE_JWT_EXPIRATION" → (config e).auth.jwtExpiration = "7d") ∧
    (varFalsy e "VITE_UNSPLASH_ACCESS_KEY" → (config e).services.unsplash = "") ∧
    (varFalsy e "VITE_GOOGLE_MAPS_API_KEY" → (config e).services.googleMaps = "") ∧
    (varFalsy e "VITE_STRIPE_PUBLISHABLE_KEY" →
      (config e).services.stripe.publishableKey = "") ∧
    (varFalsy e "VITE_STRIPE_SECRET_KEY" → (config e).services.stripe.secretKey = "") ∧
    (varFalsy e "VITE_PAYPAL_CLIENT_ID" → (config e).services.paypal.clientId = "") ∧
    (varFalsy e "VITE_PAYPAL_SECRET" → (config e).services.paypal.secret = "") ∧
    (varFalsy e "VITE_APP_ENV" → (config e).app.env = "development") ∧
    (varFalsy e "VITE_APP_URL" → (config e).app.url = "http://localhost:5173") ∧
    (varFalsy e "VITE_DEFAULT_PER_PAGE" →
      (config e).pagination.defaultPerPage = JSNum.num 20) ∧
    (varFalsy e "VITE_MAX_PER_PAGE" → (config e).pagination.maxPerPage = JSNum.num 100) ∧
    (varFalsy e "VITE_ENABLE_REVIEWS" → (config e).features.reviews = true) ∧
    (varFalsy e "VITE_ENABLE_WISHLIST" → (config e).features.wishlist = true) ∧
    (varFalsy e "VITE_ENABLE_CHAT" → (config e).features.chat = false) ∧
    (varFalsy e "VITE_ENABLE_NOTIFICATIONS" → (config e).features.notifications = true) ∧
    (varFalsy e "VITE_SMTP_HOST" → (config e).email.smtp.host = "") ∧
    (varFalsy e "VITE_SMTP_PORT" → (config e).email.smtp.port = JSNum.num 587) ∧
    (varFalsy e "VITE_SMTP_USER" → (config e).email.smtp.user = "") ∧
    (varFalsy e "VITE_SMTP_PASSWORD" → (config e).email.smtp.password = "") ∧
    (varFalsy e "VITE_SMTP_FROM" → (config e).email.from_ = "noreply@shoplocal.com") ∧
    (varFalsy e "VITE_SMTP_FROM_NAME" →
      (config e).email.fromName = "ShopLocal Marketplace") ∧
    (varFalsy e "VITE_CDN_URL" → (config e).storage.cdnUrl = "") ∧
    (varFalsy e "VITE_AWS_ACCESS_KEY_ID" → (config e).storage.aws.accessKeyId = "") ∧
    (varFalsy e "VITE_AWS_SECRET_ACCESS_KEY" →
      (config e).storage.aws.secretAccessKey = "") ∧
    (varFalsy e "VITE_AWS_REGION" → (config e).storage.aws.region = "us-east-1") ∧
    (varFalsy e "VITE_AWS_S3_BUCKET" → (config e).storage.aws.bucket = "") ∧
    (varFalsy e "VITE_GA_TRACKING_ID" → (config e).analytics.googleAnalytics = "") ∧
    (varFalsy e "VITE_FB_PIXEL_ID" → (config e).analytics.facebookPixel = "") ∧
    (varFalsy e "VITE_SENTRY_DSN" → (config e).analytics.sentry = "") ∧
    (varFalsy e "VITE_CORS_ORIGINS" → (config e).security.corsOrigins = []) ∧
    (varFalsy e "VITE_RATE_LIMIT_REQUESTS" →
      (config e).security.rateLimit.requests = JSNum.num 100) ∧
    (varFalsy e "VITE_RATE_LIMIT_WINDOW" →
      (config e).security.rateLimit.window = JSNum.num 900000) ∧
    (varFalsy e "VITE_SESSION_SECRET" → (config e).security.sessionSecret = "") := by
  refine ⟨fun h => getEnv_eq_default e _ _ h, fun h => getEnv_eq_default e _ _ h,
    fun h => getEnv_eq_default e _ _ h, fun h => getEnvNumber_eq_default e _ _ h,
    fun h => getEnv_eq_default e _ _ h, fun h => getEnv_eq_default e _ _ h,
    fun h => getEnv_eq_default e _ _ h, fun h => getEnv_eq_default e _ _ h,
    fun h => getEnv_eq_default e _ _ h, fun h => getEnv_eq_default e _ _ h,
    fun h => getEnv_eq_default e _ _ h, fun h => getEnv_eq_default e _ _ h,
    fun h => getEnv_eq_default e _ _ h, fun h => getEnv_eq_default e _ _ h,
    fun h => getEnv_eq_default e _ _ h, fun h => getEnv_eq_default e _ _ h,
    fun h => getEnv_eq_default e _ _ h, fun h => getEnvNumber_eq_default e _ _ h,
    fun h => getEnvNumber_eq_default e _ _ h, fun h => getEnvBoolean_eq_default e _ _ h,
    fun h => getEnvBoolean_eq_default e _ _ h, fun h => getEnvBoolean_eq_default e _ _ h,
    fun h => getEnvBoolean_eq_default e _ _ h, fun h => getEnv_eq_default e _ _ h,
    fun h => getEnvNumber_eq_default e _ _ h, fun h => getEnv_eq_default e _ _ h,
    fun h => getEnv_eq_default e _ _ h, fun h => getEnv_eq_default e _ _ h,
    fun h => getEnv_eq_default e _ _ h, fun h => getEnv_eq_default e _ _ h,
    fun h => getEnv_eq_default e _ _ h, fun h => getEnv_eq_default e _ _ h,
    fun h => getEnv_eq_default e _ _ h, fun h => getEnv_eq_default e _ _ h,
    fun h => getEnv_eq_default e _ _ h, fun h => getEnv_eq_default e _ _ h,
    fun h => getEnv_eq_default e _ _ h, ?_,
    fun h => getEnvNumber_eq_default e _ _ h, fun h => getEnvNumber_eq_default e _ _ h,
    fun h => getEnv_eq_default e _ _ h⟩
  intro h
  have hcors : (config e).security.corsOrigins =
      ((getEnv e "VITE_CORS_ORIGINS" "").splitOn ",").filter (fun s => s ≠ "") := rfl
  rw [hcors, getEnv_eq_default e "VITE_CORS_ORIGINS" "" h]
  with_unfolding_all decide

/-- Claim C4 witness: in an environment where VITE_WP_USERNAME is set but
nothing else is, the timeout, the reviews flag and the CORS origins still
take their documented defaults, each conditioned only on its own
variable. -/
theorem claim_C4_witness :
    (config (envWith [("VITE_WP_USERNAME", "u")])).api.timeout = JSNum.num 10000 ∧
    (config (envWith [("VITE_WP_USERNAME", "u")])).features.reviews = true ∧
    (config (envWith [("VITE_WP_USERNAME", "u")])).security.corsOrigins = [] := by
  have h := claim_C4 (envWith [("VITE_WP_USERNAME", "u")])
  exact ⟨h.2.2.2.1 (by decide),
    h.2.2.2.2.2.2.2.2.2.2.2.2.2.2.2.2.2.2.2.1 (by decide),
    h.2.2.2.2.2.2.2.2.2.2.2.2.2.2.2.2.2.2.2.2.2.2.2.2.2.2.2.2.2.2.2.2.2.2.2.2.2.1
      (by decide)⟩

/-- Claim C5: security.corsOrigins is the comma-split of the
VITE_CORS_ORIGINS string with empty segments discarded, and in particular
the input a,b,,c yields the ordered sequence a, b, c. -/
theorem claim_C5 (e : JSEnv) :
    (config e).security.corsOrigins =
      splitCommasDropEmpty (getEnv e "VITE_CORS_ORIGINS") ∧
    (e.metaDefined = true → e.envTruthy = true →
      e.vars "VITE_CORS_ORIGINS" = some "a,b,,c" →
      (config e).security.corsOrigins = ["a", "b", "c"]) := by
  constructor
  · rfl
  · intro h1 h2 h3
    have hc : (config e).security.corsOrigins =
        ((getEnv e "VITE_CORS_ORIGINS" "").splitOn ",").filter (fun s => s ≠ "") := rfl
    rw [hc, getEnv_eq_val e "VITE_CORS_ORIGINS" "" "a,b,,c" h1 h2 h3 (by decide)]
    with_unfolding_all decide

/-- Claim C5 witness: with VITE_CORS_ORIGINS = a,b,,c, the CORS origins
are exactly a, b, c in order. -/
theorem claim_C5_witness :
    (config (envWith [("VITE_CORS_ORIGINS", "a,b,,c")])).security.corsOrigins =
      ["a", "b", "c"] :=
  (claim_C5 (envWith [("VITE_CORS_ORIGINS", "a,b,,c")])).2 rfl rfl (by decide)

/-- Claim C9: with VITE_CORS_ORIGINS absent or empty (or the source
unavailable), corsOrigins is the empty list, because splitting the empty
string on commas yields a single empty segment which the filter then
discards. -/
theorem claim_C9 (e : JSEnv)
    (h : e.metaDefined = false ∨ e.envTruthy = false ∨
      e.vars "VITE_CORS_ORIGINS" = none ∨ e.vars "VITE_CORS_ORIGINS" = some "") :
    (config e).security.corsOrigins = [] ∧ "".splitOn "," = [""] := by
  constructor
  · have hc : (config e).security.corsOrigins =
        ((getEnv e "VITE_CORS_ORIGINS" "").splitOn ",").filter (fun s => s ≠ "") := rfl
    rw [hc, getEnv_eq_default e "VITE_CORS_ORIGINS" "" h]
    with_unfolding_all decide
  · with_unfolding_all rfl

/-- Claim C9 witness: with an empty environment the CORS origins are the
empty list. -/
theorem claim_C9_witness :
    (config envEmpty).security.corsOrigins = [] ∧ "".splitOn "," = [""] :=
  claim_C9 envEmpty (Or.inr (Or.inr (Or.inl rfl)))

/-- Claim C1: getAuthHeader follows a fixed priority order — a non-empty
configured token yields Basic token (whatever the username and password
hold); otherwise non-empty username and appPassword yield Basic followed
by their btoa encoding; otherwise an available browser storage holding a
non-empty authToken yields Basic storedToken; otherwise the result is the
empty string. -/
theorem claim_C1 (e : JSEnv) (w : BrowserStorage) :
    ((config e).auth.token ≠ "" →
      getAuthHeader e w = some ("Basic " ++ (config e).auth.token)) ∧
    ((config e).auth.token = "" → (config e).auth.username ≠ "" →
      (config e).auth.appPassword ≠ "" →
      ∀ b, btoa ((config e).auth.username ++ ":" ++ (config e).auth.appPassword) = some b →
        getAuthHeader e w = some ("Basic " ++ b)) ∧
    ((config e).auth.token = "" →
      ((config e).auth.username = "" ∨ (config e).auth.appPassword = "") →
      w.windowDefined = true → w.localStorageTruthy = true →
      ∀ t, w.items "authToken" = some t → t ≠ "" →
        getAuthHeader e w = some ("Basic " ++ t)) ∧
    ((config e).auth.token = "" →
      ((config e).auth.username = "" ∨ (config e).auth.appPassword = "") →
      (w.windowDefined = false ∨ w.localStorageTruthy = false ∨
        w.items "authToken" = none ∨ w.items "authToken" = some "") →
      getAuthHeader e w = some "") := by
  refine ⟨?_, ?_, ?_, ?_⟩
  · intro ht
    unfold getAuthHeader
    rw [if_pos ht]
  · intro ht hu hp b hb
    unfold getAuthHeader
    rw [if_neg (not_not_intro ht), if_pos ⟨hu, hp⟩, hb]
  · intro ht hup hw hl t hst htne
    have hc : ¬((config e).auth.username ≠ "" ∧ (config e).auth.appPassword ≠ "") := by
      rcases hup with h | h
      · exact fun hx => hx.1 h
      · exact fun hx => hx.2 h
    unfold getAuthHeader
    rw [if_neg (not_not_intro ht), if_neg hc, if_pos (by rw [hw, hl]; rfl), hst]
    exact if_pos htne
  · intro ht hup hcase
    have hc : ¬((config e).auth.username ≠ "" ∧ (config e).auth.appPassword ≠ "") := by
      rcases hup with h | h
      · exact fun hx => hx.1 h
      · exact fun hx => hx.2 h
    unfold getAuthHeader
    rw [if_neg (not_not_intro ht), if_neg hc]
    rcases hcase with h | h | h | h
    · simp [h]
    · simp [h]
    · by_cases hb2 : (w.windowDefined && w.localStorageTruthy) = true
      · rw [if_pos hb2, h]
      · rw [if_neg hb2]
    · by_cases hb2 : (w.windowDefined && w.localStorageTruthy) = true
      · rw [if_pos hb2, h]
        exact if_neg (fun hx => hx rfl)
      · rw [if_neg hb2]

/-- Claim C1 witness: with a configured token T and no browser storage,
getAuthHeader returns Basic T. -/
theorem claim_C1_witness :
    getAuthHeader (envWith [("VITE_API_AUTH_TOKEN", "T")]) lsNone = some "Basic T" :=
  ((claim_C1 (envWith [("VITE_API_AUTH_TOKEN", "T")]) lsNone).1 (by decide)).trans
    (by decide)

/-- Claim C6: with no configured token, username u and appPassword p,
getAuthHeader returns Basic followed by the base64 encoding of u:p, which
is dTpw. -/
theorem claim_C6 (e : JSEnv) (w : BrowserStorage)
    (h1 : e.metaDefined = true) (h2 : e.envTruthy = true)
    (h3 : e.vars "VITE_API_AUTH_TOKEN" = none)
    (h4 : e.vars "VITE_WP_USERNAME" = some "u")
    (h5 : e.vars "VITE_WP_APP_PASSWORD" = some "p") :
    getAuthHeader e w = some ("Basic " ++ "dTpw") ∧ btoa "u:p" = some "dTpw" := by
  have ht : (config e).auth.token = "" :=
    getEnv_eq_default e "VITE_API_AUTH_TOKEN" "" (Or.inr (Or.inr (Or.inl h3)))
  have hu : (config e).auth.username = "u" :=
    getEnv_eq_val e "VITE_WP_USERNAME" "" "u" h1 h2 h4 (by decide)
  have hp : (config e).auth.appPassword = "p" :=
    getEnv_eq_val e "VITE_WP_APP_PASSWORD" "" "p" h1 h2 h5 (by decide)
  constructor
  · have hbt : btoa ("u" ++ ":" ++ "p") = some "dTpw" := by decide
    unfold getAuthHeader
    rw [ht, hu, hp, if_neg (fun hx => hx rfl), if_pos (by exact ⟨by decide, by decide⟩), hbt]
  · decide

/-- Claim C6 witness: at a concrete environment with username u and
password p, getAuthHeader returns Basic dTpw. -/
theorem claim_C6_witness :
    getAuthHeader (envWith [("VITE_WP_USERNAME", "u"), ("VITE_WP_APP_PASSWORD", "p")])
      lsNone = some ("Basic " ++ "dTpw") ∧ btoa "u:p" = some "dTpw" :=
  claim_C6 (envWith [("VITE_WP_USERNAME", "u"), ("VITE_WP_APP_PASSWORD", "p")]) lsNone
    rfl rfl (by decide) (by decide) (by decide)

/-- Claim C8: whenever getAuthHeader returns a value (rather than
propagating a btoa failure), that value is the empty string or starts
with the prefix Basic followed by a space. -/
theorem claim_C8 (e : JSEnv) (w : BrowserStorage) (s : String)
    (h : getAuthHeader e w = some s) :
    s = "" ∨ ∃ r, s = "Basic " ++ r := by
  unfold getAuthHeader at h
  split at h
  · exact Or.inr ⟨(config e).auth.token, (Option.some.inj h).symm⟩
  · split at h
    · split at h
      · exact Or.inr ⟨_, (Option.some.inj h).symm⟩
      · simp at h
    · split at h
      · split at h
        · split at h
          · exact Or.inr ⟨_, (Option.some.inj h).symm⟩
          · exact Or.inl (Option.some.inj h).symm
        · exact Or.inl (Option.some.inj h).symm
      · exact Or.inl (Option.some.inj h).symm

/-- Claim C8 witness: with an empty environment and no browser storage,
the returned value is the empty string, which satisfies the shape. -/
theorem claim_C8_witness : ("" : String) = "" ∨ ∃ r, ("" : String) = "Basic " ++ r :=
  claim_C8 envEmpty lsNone "" (by decide)

end ShopLocal
